import Mathlib

/-!
# Verification of the presentation style/export engine

A shallow embedding, in Lean 4, of the style catalog (`src/styles.py`), the
PPTX document exporter (`src/exporter.py`), the HTML markup renderer
(`src/renderer.py`) and the legacy style-key remap table of the orchestrator
(`nano_banana_app.py`), together with theorems settling the frozen claims
about this code.

Modelling conventions:

* Python dicts with string keys are association lists `List (String × α)`;
  `dictGet` models `dict.get(key, default)` (the literals in the source carry
  no duplicate keys, so first-match lookup coincides with Python semantics).
* Python string truthiness (`if s:` for an optional string attribute) is
  `truthy : Option String → Bool` — `None` and the empty string are falsy.
* `int(s, 16)` on plain hexadecimal-digit strings is `pyIntHex` (returning
  `none` where Python raises `ValueError`; the signed / underscore / "0x"
  forms that `int` also accepts cannot arise from the call sites modelled).
* The external base64 decoder plus picture insertion of
  `PptxExporter._set_background` (the body of its `try:` block after the
  data-URI handling) is an arbitrary function `decode : String → Option Img`:
  `none` models "raises" and is caught by the `except` clause.
* Geometry (positions, sizes in EMU) is not modelled; each page / slide unit
  keeps the observable fields the claims speak about (background layer,
  accent-colored shapes, badge text, progress dots, title and body text).
-/

/-- `dict.get(key, default)` over an association-list model of a Python dict
with string keys (first match wins; source literals have no duplicates). -/
def dictGet {α : Type} (m : List (String × α)) (key : String) (default : α) : α :=
  match m.find? (fun p => p.1 = key) with
  | some p => p.2
  | none => default

/-- Python truthiness of an optional string: `None` and `""` are falsy. -/
def truthy : Option String → Bool
  | none => false
  | some s => !(s = "")

/-- `str(n).zfill(2)` for a non-negative integer `n` (exporter badge text,
`src/exporter.py` line 298). -/
def zfill2 (n : Nat) : String :=
  let s := toString n
  if s.length < 2 then String.mk (List.replicate (2 - s.length) '0') ++ s else s

/-- Jinja2 `"%02d" | format(n)` for a non-negative integer `n` (renderer badge
text, `src/renderer.py` line 269). -/
def format02d (n : Nat) : String :=
  let s := toString n
  if s.length < 2 then String.mk (List.replicate (2 - s.length) '0') ++ s else s

/-- Value of a single hexadecimal digit as accepted by Python `int(·, 16)`:
`'0'`–`'9'` (code points 48–57), `'a'`–`'f'` (97–102), `'A'`–`'F'` (65–70). -/
def hexDigitVal (c : Char) : Option Nat :=
  if 48 ≤ c.toNat ∧ c.toNat ≤ 57 then some (c.toNat - 48)
  else if 97 ≤ c.toNat ∧ c.toNat ≤ 102 then some (c.toNat - 87)
  else if 65 ≤ c.toNat ∧ c.toNat ≤ 70 then some (c.toNat - 55)
  else none

/-- Accumulator loop for `pyIntHex`. -/
def hexDigitsAux (acc : Nat) : List Char → Option Nat
  | [] => some acc
  | c :: rest =>
    match hexDigitVal c with
    | some d => hexDigitsAux (16 * acc + d) rest
    | none => none

/-- Python `int(s, 16)` on a string of plain hexadecimal digits: `none`
models the `ValueError` raised on the empty string or a non-digit. -/
def pyIntHex (cs : List Char) : Option Nat :=
  match cs with
  | [] => none
  | _ => hexDigitsAux 0 cs

/-- Python slice `cs[i:j]` for `0 ≤ i ≤ j` (out-of-range indices truncate). -/
def pySlice (cs : List Char) (i j : Nat) : List Char :=
  (cs.take j).drop i

/-- Python `str.split(",")` on the underlying character list. -/
def splitCommaList : List Char → List (List Char)
  | [] => [[]]
  | c :: rest =>
    if c = ',' then [] :: splitCommaList rest
    else
      match splitCommaList rest with
      | [] => [[c]]
      | h :: t => (c :: h) :: t

/-- Python `"," in s`. -/
def pyContainsComma (s : String) : Bool :=
  s.data.contains ','

/-- Python `s.split(",")`. -/
def pySplitComma (s : String) : List String :=
  (splitCommaList s.data).map fun cs => String.mk cs

/-- `python-pptx` `RGBColor(r, g, b)`: three 0–255 channel values. -/
structure RGBColor where
  r : Nat
  g : Nat
  b : Nat
deriving DecidableEq, Repr

/-- `PptxExporter._hex_to_rgb` (`src/exporter.py` lines 450–481):
`h = hex_color.lstrip('#')`, then
`RGBColor(*tuple(int(h[i:i+2], 16) for i in (0, 2, 4)))`.
`none` models the `ValueError` Python raises on a malformed color. -/
def hex_to_rgb (hex_color : String) : Option RGBColor := do
  let h := hex_color.data.dropWhile (fun c => c = '#')
  let r ← pyIntHex (pySlice h 0 2)
  let g ← pyIntHex (pySlice h 2 4)
  let b ← pyIntHex (pySlice h 4 6)
  pure ⟨r, g, b⟩

/-- `StyleProfile` (`src/styles.py` lines 53–85). -/
structure StyleProfile where
  name : String
  layout_template_name : String
  base_prompt_modifier : String
  logic_color_map : List (String × String)
  mascot_actions : List (String × String)
deriving DecidableEq, Repr

/-- `METRO_STYLE` (`src/styles.py` lines 96–124; the prompt text elided to a
stable marker, it takes no part in any claim). -/
def METRO_STYLE : StyleProfile :=
  { name := "Taipei Metro"
  , layout_template_name := "metro"
  , base_prompt_modifier := "Style: Clean, bright, professional public transport signage aesthetic."
  , logic_color_map :=
      [ ("point_opening", "#E3002C")
      , ("reasons", "#C48C31")
      , ("examples", "#0070BD")
      , ("point_closing", "#008659")
      , ("default", "#333333") ]
  , mascot_actions := [] }

/-- `MODERN_CAFE_STYLE` (`src/styles.py` lines 130–157). -/
def MODERN_CAFE_STYLE : StyleProfile :=
  { name := "Modern Cafe"
  , layout_template_name := "metro"
  , base_prompt_modifier := "Style: Cozy modern cafe interior, natural lighting from large windows, professional atmosphere."
  , logic_color_map :=
      [ ("point_opening", "#8B4513")
      , ("reasons", "#D2691E")
      , ("examples", "#6B8E23")
      , ("point_closing", "#CD853F")
      , ("default", "#5D4E37") ]
  , mascot_actions := [] }

/-- `MINIMAL_CONCRETE_STYLE` (`src/styles.py` lines 163–190). -/
def MINIMAL_CONCRETE_STYLE : StyleProfile :=
  { name := "Minimal Concrete"
  , layout_template_name := "metro"
  , base_prompt_modifier := "Style: Minimalist concrete architecture, industrial aesthetic, professional corporate feel."
  , logic_color_map :=
      [ ("point_opening", "#708090")
      , ("reasons", "#2F4F4F")
      , ("examples", "#696969")
      , ("point_closing", "#778899")
      , ("default", "#808080") ]
  , mascot_actions := [] }

/-- `WARM_WOOD_STYLE` (`src/styles.py` lines 196–223). -/
def WARM_WOOD_STYLE : StyleProfile :=
  { name := "Warm Wood"
  , layout_template_name := "metro"
  , base_prompt_modifier := "Style: Warm wooden interior, Scandinavian design aesthetic, professional setting."
  , logic_color_map :=
      [ ("point_opening", "#DEB887")
      , ("reasons", "#CD853F")
      , ("examples", "#8FBC8F")
      , ("point_closing", "#F4A460")
      , ("default", "#D2B48C") ]
  , mascot_actions := [] }

/-- `TECH_GRADIENT_STYLE` (`src/styles.py` lines 229–256). -/
def TECH_GRADIENT_STYLE : StyleProfile :=
  { name := "Tech Gradient"
  , layout_template_name := "metro"
  , base_prompt_modifier := "Style: Modern tech aesthetic with smooth gradients, futuristic professional feel."
  , logic_color_map :=
      [ ("point_opening", "#667EEA")
      , ("reasons", "#764BA2")
      , ("examples", "#F093FB")
      , ("point_closing", "#4FACFE")
      , ("default", "#7F7FD5") ]
  , mascot_actions := [] }

/-- `FLAT_INFOGRAPHIC_STYLE` (`src/styles.py` lines 262–291). -/
def FLAT_INFOGRAPHIC_STYLE : StyleProfile :=
  { name := "Flat Infographic"
  , layout_template_name := "metro"
  , base_prompt_modifier := "Style: Modern flat design with vector graphics and bold outlines."
  , logic_color_map :=
      [ ("point_opening", "#2563EB")
      , ("reasons", "#DC2626")
      , ("examples", "#059669")
      , ("point_closing", "#7C3AED")
      , ("default", "#1E293B") ]
  , mascot_actions := [] }

/-- `StyleType` (`src/styles.py` lines 20–47): a closed `str` enumeration. -/
inductive StyleType where
  | DEFAULT
  | TAIPEI_METRO
  | MODERN_CAFE
  | MINIMAL_CONCRETE
  | WARM_WOOD
  | TECH_GRADIENT
  | FLAT_INFOGRAPHIC
deriving DecidableEq, Repr

/-- The string value of each `StyleType` member. Because `StyleType` mixes in
`str`, a member hashes and compares equal to its value string, so dictionary
lookups keyed by members are lookups by these strings. -/
def StyleType.val : StyleType → String
  | .DEFAULT => "default"
  | .TAIPEI_METRO => "taipei_metro"
  | .MODERN_CAFE => "modern_cafe"
  | .MINIMAL_CONCRETE => "minimal_concrete"
  | .WARM_WOOD => "warm_wood"
  | .TECH_GRADIENT => "tech_gradient"
  | .FLAT_INFOGRAPHIC => "flat_infographic"

/-- `[s.value for s in StyleType]` (`nano_banana_app.py` line 571). -/
def StyleType.values : List String :=
  [ "default", "taipei_metro", "modern_cafe", "minimal_concrete"
  , "warm_wood", "tech_gradient", "flat_infographic" ]

namespace StyleRegistry

/-- `StyleRegistry._styles` (`src/styles.py` lines 313–320), keyed by the
string values of the `StyleType` members (see `StyleType.val`). Note that
`StyleType.DEFAULT` has no entry. -/
def styles : List (String × StyleProfile) :=
  [ (StyleType.TAIPEI_METRO.val, METRO_STYLE)
  , (StyleType.MODERN_CAFE.val, MODERN_CAFE_STYLE)
  , (StyleType.MINIMAL_CONCRETE.val, MINIMAL_CONCRETE_STYLE)
  , (StyleType.WARM_WOOD.val, WARM_WOOD_STYLE)
  , (StyleType.TECH_GRADIENT.val, TECH_GRADIENT_STYLE)
  , (StyleType.FLAT_INFOGRAPHIC.val, FLAT_INFOGRAPHIC_STYLE) ]

/-- `StyleRegistry.get` (`src/styles.py` lines 322–340):
`cls._styles.get(style_type, METRO_STYLE)`. -/
def get (style_type : String) : StyleProfile :=
  dictGet styles style_type METRO_STYLE

end StyleRegistry

/-- `old_style_map` (`nano_banana_app.py` lines 573–579): the fixed legacy
style-key remap table of the orchestrator; values are `StyleType` members,
recorded here by their string values. -/
def old_style_map : List (String × String) :=
  [ ("professional", "taipei_metro")
  , ("creative", "modern_cafe")
  , ("minimal", "minimal_concrete")
  , ("tech", "tech_gradient")
  , ("warm", "warm_wood") ]

/-- The orchestrator's style normalization (`nano_banana_app.py` lines
571–580): a string style not among the `StyleType` values is replaced by
`old_style_map.get(style, StyleType.TAIPEI_METRO)` before any later use. -/
def app_normalize_style (s : String) : String :=
  if StyleType.values.contains s then s
  else dictGet old_style_map s StyleType.TAIPEI_METRO.val

/-- Modelled from the spec: `SlideContent` (its declaring module
`src/models.py` is not among the provided sources; only its consumers are).
Spec §3 gives the fields — id, section tag, title, body text, optional
base64 background payload; the attribute names are the ones the exporter and
renderer read (`framework_section`, `title`, `body_text`,
`background_image_base64`). -/
structure SlideContent where
  id : String
  framework_section : String
  title : String
  body_text : String
  background_image_base64 : Option String
deriving DecidableEq, Repr

/-- One progress dot drawn by `PptxExporter._draw_presentation_ui`
(`src/exporter.py` lines 320–349). `line = some (c, w)` is a border of color
`c` and width `w` points; `line = none` is `line.fill.background()`. -/
structure ProgressDot where
  fill : RGBColor
  fill_transparency : ℚ
  line : Option (RGBColor × ℚ)
deriving DecidableEq, Repr

/-- A dot of the exporter's progress row is in the active visual state when
it is filled white and carries a border (the accent-colored outline). -/
def ProgressDot.isActive (d : ProgressDot) : Bool :=
  d.fill = ⟨255, 255, 255⟩ && d.line.isSome

/-- One page of the exported document: the observable outputs of the
per-slide loop body of `PptxExporter.export` (`src/exporter.py` lines
104–125). `Img` is the type of decoded background pictures. -/
structure ExportPage (Img : Type) where
  background : Option Img
  line_fill : RGBColor
  badge_text : String
  badge_fill : RGBColor
  badge_line_color : RGBColor
  badge_line_width : ℚ
  badge_font_color : RGBColor
  dots : List ProgressDot
  accent_bar_fill : RGBColor
  title_text : String
  body_text : String
deriving DecidableEq, Repr

/-- A page value used as `getD` default in theorem statements. -/
def defaultPage (Img : Type) : ExportPage Img :=
  { background := none
  , line_fill := ⟨0, 0, 0⟩
  , badge_text := ""
  , badge_fill := ⟨0, 0, 0⟩
  , badge_line_color := ⟨0, 0, 0⟩
  , badge_line_width := 0
  , badge_font_color := ⟨0, 0, 0⟩
  , dots := []
  , accent_bar_fill := ⟨0, 0, 0⟩
  , title_text := ""
  , body_text := "" }

/-- The data-URI handling of `PptxExporter._set_background`
(`src/exporter.py` lines 379–380): `if "," in b64_str:
b64_str = b64_str.split(",")[1]` — the string actually passed on to
`base64.b64decode`. -/
def set_background_payload (b64_str : String) : String :=
  if pyContainsComma b64_str then (pySplitComma b64_str).getD 1 "" else b64_str

/-- `PptxExporter._set_background` (`src/exporter.py` lines 354–403): strip
the data-URI prefix, then run the fallible decode-and-insert body. The whole
body sits in `try: ... except Exception: pass`, so a failure (`none`) leaves
the slide without a background layer and propagates nothing. -/
def set_background {Img : Type} (decode : String → Option Img) (b64_str : String) : Option Img :=
  decode (set_background_payload b64_str)

/-- The background layer a slide ends up with (`src/exporter.py` lines
109–111): `_set_background` is called only when the payload is truthy. -/
def pageBackground {Img : Type} (decode : String → Option Img) (content : SlideContent) : Option Img :=
  if truthy content.background_image_base64 then
    set_background decode (content.background_image_base64.getD "")
  else none

/-- The progress-dot row of `_draw_presentation_ui` (`src/exporter.py` lines
321–349): `for i in range(1, total_slides + 1)`, the dot with `i == index`
is white with an accent border of width 2.5 pt, every other dot is light
gray at 50% transparency with no border. -/
def draw_progress_dots (index : Nat) (rgb_color : RGBColor) (total_slides : Nat) : List ProgressDot :=
  (List.range' 1 total_slides).map fun i =>
    if i = index then
      { fill := ⟨255, 255, 255⟩, fill_transparency := 0, line := some (rgb_color, 5 / 2) }
    else
      { fill := ⟨200, 200, 200⟩, fill_transparency := 1 / 2, line := none }

/-- The body of the per-slide loop of `PptxExporter.export`
(`src/exporter.py` lines 104–125) for the slide at 1-based position `idx` of
a deck of `total` slides: background (lines 110–111), accent color
resolution `style.logic_color_map.get(content.framework_section, "#333333")`
(line 115) and conversion (line 118, `none` = raises), then the UI chrome of
`_draw_presentation_ui` (badge text `str(idx).zfill(2)`, progress dots) and
the text content of `_draw_text_content`. -/
def mkPage {Img : Type} (decode : String → Option Img) (style : StyleProfile)
    (total idx : Nat) (content : SlideContent) : Option (ExportPage Img) :=
  (hex_to_rgb (dictGet style.logic_color_map content.framework_section "#333333")).map
    fun rgb_color =>
      { background := pageBackground decode content
      , line_fill := rgb_color
      , badge_text := zfill2 idx
      , badge_fill := ⟨255, 255, 255⟩
      , badge_line_color := rgb_color
      , badge_line_width := 6
      , badge_font_color := rgb_color
      , dots := draw_progress_dots idx rgb_color total
      , accent_bar_fill := rgb_color
      , title_text := content.title
      , body_text := content.body_text }

/-- The `for idx, content in enumerate(slides)` loop of `PptxExporter.export`
carrying the 1-based position `idx` (the source's `idx + 1`). -/
def exportPages {Img : Type} (decode : String → Option Img) (style : StyleProfile)
    (total : Nat) : Nat → List SlideContent → Option (List (ExportPage Img))
  | _, [] => some []
  | idx, content :: rest =>
    match mkPage decode style total idx content with
    | none => none
    | some page =>
      match exportPages decode style total (idx + 1) rest with
      | none => none
      | some pages => some (page :: pages)

/-- `PptxExporter.export` (`src/exporter.py` lines 75–128): one page per
slide, in input order; `none` models an uncaught exception (a malformed
accent color), while background failures are absorbed per slide. -/
def pptx_export {Img : Type} (decode : String → Option Img)
    (slides : List SlideContent) (style : StyleProfile) : Option (List (ExportPage Img)) :=
  exportPages decode style slides.length 1 slides

/-- One progress dot of the HTML renderer (`src/renderer.py` lines 275–280):
its emitted `class` attribute and inline `style` attribute. -/
structure RenderDot where
  css_class : String
  style_attr : String
deriving DecidableEq, Repr

/-- A renderer dot is in the active visual state when its class list carries
`active`. -/
def RenderDot.isActive (d : RenderDot) : Bool :=
  d.css_class = "progress-dot active"

/-- One slide unit of the rendered HTML (`src/renderer.py` lines 254–291):
the values the template interpolates for one slide. -/
structure RenderSlide where
  background_style : String
  line_color : String
  badge_border_color : String
  badge_text : String
  dots : List RenderDot
  title : String
  body_text : String
deriving DecidableEq, Repr

/-- A slide value used as `getD` default in theorem statements. -/
def defaultRenderSlide : RenderSlide :=
  { background_style := ""
  , line_color := ""
  , badge_border_color := ""
  , badge_text := ""
  , dots := []
  , title := ""
  , body_text := "" }

/-- The inner dot loop of the template (`src/renderer.py` lines 275–280):
`{% for i in range(1, slides|length + 1) %}` with the active test
`i == loop.index`. Inside this nested loop, Jinja2's `loop` is the *inner*
loop, so `j` here is the inner loop's 1-based iteration counter. -/
def renderDotsAux (color : String) : Nat → List Nat → List RenderDot
  | _, [] => []
  | j, i :: rest =>
    (if i = j then
      { css_class := "progress-dot active"
      , style_attr := "border: 2px solid " ++ color ++ ";" }
    else
      { css_class := "progress-dot", style_attr := "" }) :: renderDotsAux color (j + 1) rest

/-- The renderer's progress-dot row for a deck of `n` slides. -/
def renderDots (color : String) (n : Nat) : List RenderDot :=
  renderDotsAux color 1 (List.range' 1 n)

/-- The per-slide body of the template's outer loop (`src/renderer.py` lines
254–291) for the slide at 1-based position `idx` (the outer `loop.index`) of
a deck of `n` slides: color resolution
`style.logic_color_map.get(slide.framework_section, '#333')` (line 256), the
background-image URL `data:image/png;base64,` + payload emitted verbatim
when the payload is truthy (line 260), badge `"%02d" | format(loop.index)`
(line 269), and the progress dots (lines 273–281). -/
def mkRenderSlide (style : StyleProfile) (n idx : Nat) (slide : SlideContent) : RenderSlide :=
  let color := dictGet style.logic_color_map slide.framework_section "#333"
  { background_style :=
      if truthy slide.background_image_base64 then
        "data:image/png;base64," ++ slide.background_image_base64.getD ""
      else ""
  , line_color := color
  , badge_border_color := color
  , badge_text := format02d idx
  , dots := renderDots color n
  , title := slide.title
  , body_text := slide.body_text }

/-- The outer `{% for slide in slides %}` loop, carrying the 1-based
`loop.index`. -/
def renderSlidesFrom (style : StyleProfile) (n : Nat) : Nat → List SlideContent → List RenderSlide
  | _, [] => []
  | idx, slide :: rest => mkRenderSlide style n idx slide :: renderSlidesFrom style n (idx + 1) rest

/-- `PresentationRenderer.render` (`src/renderer.py` lines 302–330),
restricted to the list of per-slide units the template emits inside the
container div. Rendering never fails. -/
def render_slides (slides : List SlideContent) (style : StyleProfile) : List RenderSlide :=
  renderSlidesFrom style slides.length 1 slides

/-- A slide value used as `getD` default in theorem statements. -/
def defaultSlide : SlideContent :=
  { id := "", framework_section := "", title := "", body_text := ""
  , background_image_base64 := none }

/-- `content` with its `background_image_base64` attribute replaced. -/
def SlideContent.withBg (content : SlideContent) (b : Option String) : SlideContent :=
  { content with background_image_base64 := b }

/-- A concrete two-slide deck (no background images) used by witnesses and
failing-input evaluations. -/
def sampleDeck2 : List SlideContent :=
  [ { id := "s1", framework_section := "point_opening", title := "Opening"
    , body_text := "Body one", background_image_base64 := none }
  , { id := "s2", framework_section := "examples", title := "Examples"
    , body_text := "Body two", background_image_base64 := none } ]

/-- The pages the exporter produces for `sampleDeck2` under the Taipei Metro
profile (no background decoding involved). -/
def samplePages : List (ExportPage Unit) :=
  (pptx_export (fun _ => (none : Option Unit)) sampleDeck2 METRO_STYLE).getD []

/-- The slide units the renderer produces for `sampleDeck2` under the Taipei
Metro profile. -/
def sampleRender : List RenderSlide :=
  render_slides sampleDeck2 METRO_STYLE

/-- A slide whose section tag is not a key of any catalog color map. -/
def mysterySlide : SlideContent :=
  { id := "m", framework_section := "mystery_section", title := "T"
  , body_text := "B", background_image_base64 := none }

/-- The same slide carrying the explicit `"default"` section tag. -/
def defaultTagSlide : SlideContent :=
  { mysterySlide with framework_section := "default" }

/-- A slide carrying an undecodable background payload. -/
def badBgSlide : SlideContent :=
  { id := "bg", framework_section := "reasons", title := "T"
  , body_text := "B", background_image_base64 := some "%%%not-base64%%%" }

/-- A slide whose stored payload already carries a data-URI marker. -/
def sampleUriSlide : SlideContent :=
  { id := "u", framework_section := "examples", title := "T"
  , body_text := "B"
  , background_image_base64 := some ("data:image/png;base64," ++ "QUJD") }

/-! ## Helper lemmas -/

/-- `dict.get` returns the default when no key of the dict matches. -/
theorem dictGet_eq_default {α : Type} {m : List (String × α)} {key : String} (d : α)
    (h : ∀ p ∈ m, p.1 ≠ key) : dictGet m key d = d := by
  unfold dictGet
  have hf : m.find? (fun p => p.1 = key) = none := by
    rw [List.find?_eq_none]
    intro p hp
    simpa using h p hp
  rw [hf]

/-- `dict.get` either falls back to the default or returns a value bound in
the dict to exactly the requested key. -/
theorem dictGet_default_or_mem {α : Type} (m : List (String × α)) (key : String) (d : α) :
    dictGet m key d = d ∨ (key, dictGet m key d) ∈ m := by
  unfold dictGet
  cases hf : m.find? (fun p => p.1 = key) with
  | none => exact Or.inl rfl
  | some p =>
    right
    have hmem := List.mem_of_find?_eq_some hf
    have hkey : p.1 = key := by simpa using List.find?_some hf
    obtain ⟨a, b⟩ := p
    cases hkey
    exact hmem

/-- `List.getD` after `List.set` at a different position. -/
theorem getD_set_ne {α : Type} (d : α) :
    ∀ (l : List α) (i : Nat) (a : α) (k : Nat), i ≠ k →
      (l.set i a).getD k d = l.getD k d := by
  intro l
  induction l with
  | nil => intro i a k _; simp
  | cons x xs ih =>
    intro i a k hik
    cases i with
    | zero =>
      cases k with
      | zero => exact absurd rfl hik
      | succ k' => simp
    | succ i' =>
      cases k with
      | zero => simp
      | succ k' => simpa using ih i' a k' (by omega)

/-- The pages of a successful export, pointwise: page `k` (0-based) is the
page `mkPage` builds for slide `k` at 1-based position `idx + k`. -/
theorem exportPages_spec {Img : Type} (decode : String → Option Img) (style : StyleProfile)
    (total : Nat) (slides : List SlideContent) :
    ∀ (idx : Nat) (pages : List (ExportPage Img)),
      exportPages decode style total idx slides = some pages →
      pages.length = slides.length ∧
      ∀ k, k < slides.length →
        mkPage decode style total (idx + k) (slides.getD k defaultSlide)
          = some (pages.getD k (defaultPage Img)) := by
  induction slides with
  | nil =>
    intro idx pages h
    simp only [exportPages] at h
    obtain rfl : ([] : List (ExportPage Img)) = pages := by injection h
    exact ⟨rfl, fun k hk => absurd hk (by simp)⟩
  | cons content rest ih =>
    intro idx pages h
    unfold exportPages at h
    cases hm : mkPage decode style total idx content with
    | none => rw [hm] at h; cases h
    | some page =>
      rw [hm] at h
      cases hrest : exportPages decode style total (idx + 1) rest with
      | none => rw [hrest] at h; cases h
      | some tail =>
        rw [hrest] at h
        obtain rfl : page :: tail = pages := by injection h
        obtain ⟨hlen, hget⟩ := ih (idx + 1) tail hrest
        refine ⟨by simp [hlen], ?_⟩
        intro k hk
        cases k with
        | zero => simpa using hm
        | succ k' =>
          have hk' : k' < rest.length := by simpa using hk
          have := hget k' hk'
          have harith : idx + (k' + 1) = idx + 1 + k' := by omega
          simpa [harith] using this

/-- Replacing the slide at position `j` replaces exactly the page at
position `j`, provided its replacement page also builds. -/
theorem exportPages_set {Img : Type} (decode : String → Option Img) (style : StyleProfile)
    (total : Nat) (slides : List SlideContent) :
    ∀ (idx j : Nat) (pages : List (ExportPage Img)) (c' : SlideContent) (p' : ExportPage Img),
      exportPages decode style total idx slides = some pages →
      mkPage decode style total (idx + j) c' = some p' →
      exportPages decode style total idx (slides.set j c') = some (pages.set j p') := by
  induction slides with
  | nil =>
    intro idx j pages c' p' h _
    simp only [exportPages] at h
    obtain rfl : ([] : List (ExportPage Img)) = pages := by injection h
    simp [exportPages]
  | cons content rest ih =>
    intro idx j pages c' p' h hp'
    unfold exportPages at h
    cases hm : mkPage decode style total idx content with
    | none => rw [hm] at h; cases h
    | some page =>
      rw [hm] at h
      cases hrest : exportPages decode style total (idx + 1) rest with
      | none => rw [hrest] at h; cases h
      | some tail =>
        rw [hrest] at h
        obtain rfl : page :: tail = pages := by injection h
        cases j with
        | zero =>
          have hp0 : mkPage decode style total idx c' = some p' := by simpa using hp'
          simp only [List.set]
          unfold exportPages
          rw [hp0, hrest]
        | succ j' =>
          have hp1 : mkPage decode style total (idx + 1 + j') c' = some p' := by
            have harith : idx + (j' + 1) = idx + 1 + j' := by omega
            simpa [harith] using hp'
          have := ih (idx + 1) j' tail c' p' hrest hp1
          simp only [List.set]
          unfold exportPages
          rw [hm, this]

/-- The background layer of a built page is exactly `pageBackground`. -/
theorem mkPage_background {Img : Type} {decode : String → Option Img} {style : StyleProfile}
    {total idx : Nat} {content : SlideContent} {page : ExportPage Img}
    (h : mkPage decode style total idx content = some page) :
    page.background = pageBackground decode content := by
  unfold mkPage at h
  cases hh : hex_to_rgb (dictGet style.logic_color_map content.framework_section "#333333") with
  | none => rw [hh] at h; cases h
  | some rgb =>
    rw [hh] at h
    simp only [Option.map_some'] at h
    injection h with h
    subst h
    rfl

/-- Badge text, title and body of a built page. -/
theorem mkPage_fields {Img : Type} {decode : String → Option Img} {style : StyleProfile}
    {total idx : Nat} {content : SlideContent} {page : ExportPage Img}
    (h : mkPage decode style total idx content = some page) :
    page.badge_text = zfill2 idx ∧ page.title_text = content.title ∧
    page.body_text = content.body_text ∧
    page.dots = draw_progress_dots idx page.line_fill total := by
  unfold mkPage at h
  cases hh : hex_to_rgb (dictGet style.logic_color_map content.framework_section "#333333") with
  | none => rw [hh] at h; cases h
  | some rgb =>
    rw [hh] at h
    simp only [Option.map_some'] at h
    injection h with h
    subst h
    exact ⟨rfl, rfl, rfl, rfl⟩

/-- Only the background layer of a page depends on the slide's background
payload. -/
theorem mkPage_withBg {Img : Type} (decode : String → Option Img) (style : StyleProfile)
    (total idx : Nat) (content : SlideContent) (b : Option String) :
    mkPage decode style total idx (content.withBg b) =
      (mkPage decode style total idx content).map
        (fun page => { page with background := pageBackground decode (content.withBg b) }) := by
  unfold mkPage SlideContent.withBg
  cases hex_to_rgb (dictGet style.logic_color_map content.framework_section "#333333") <;> rfl

/-- `splitCommaList` of a comma-free character list. -/
theorem splitCommaList_no_comma :
    ∀ (cs : List Char), ',' ∉ cs → splitCommaList cs = [cs] := by
  intro cs
  induction cs with
  | nil => intro _; rfl
  | cons c rest ih =>
    intro h
    have hc : ¬ c = ',' := by
      rintro rfl
      exact h (List.mem_cons_self _ _)
    have hrest : ',' ∉ rest := fun hr => h (List.mem_cons_of_mem _ hr)
    unfold splitCommaList
    rw [if_neg hc, ih hrest]

/-- `splitCommaList` across the first comma. -/
theorem splitCommaList_append :
    ∀ (pre rest : List Char), ',' ∉ pre →
      splitCommaList (pre ++ ',' :: rest) = pre :: splitCommaList rest := by
  intro pre
  induction pre with
  | nil => intro rest _; simp [splitCommaList]
  | cons c pre' ih =>
    intro rest h
    have hc : ¬ c = ',' := by
      rintro rfl
      exact h (List.mem_cons_self _ _)
    have hpre' : ',' ∉ pre' := fun hr => h (List.mem_cons_of_mem _ hr)
    have hrec := ih rest hpre'
    conv_lhs => simp only [List.cons_append]; unfold splitCommaList
    rw [if_neg hc, hrec]

/-- The value of `int(s, 16)` on a two-digit string. -/
theorem pyIntHex_pair {a b : Char} {da db : Nat}
    (ha : hexDigitVal a = some da) (hb : hexDigitVal b = some db) :
    pyIntHex [a, b] = some (16 * da + db) := by
  simp [pyIntHex, hexDigitsAux, ha, hb]

/-- A hexadecimal digit value is below 16. -/
theorem hexDigitVal_lt_16 {c : Char} {d : Nat} (h : hexDigitVal c = some d) : d < 16 := by
  unfold hexDigitVal at h
  split at h
  · next hc => injection h with h; omega
  · split at h
    · next hc => injection h with h; omega
    · split at h
      · next hc => injection h with h; omega
      · cases h

/-- `'#'` is not a hexadecimal digit, so a digit differs from `'#'`. -/
theorem ne_hash_of_hexDigit {c : Char} (h : (hexDigitVal c).isSome = true) : ¬ c = '#' := by
  intro hc
  subst hc
  simp [hexDigitVal] at h

/-! ## Claim C4 -/

/-- **C4, counterexample**: `StyleRegistry.get` applied directly to the
legacy key `"creative"` does *not* return the same profile as applied to its
current equivalent `"modern_cafe"` — the registry itself knows nothing of
the legacy remap and falls back to the Metro default. -/
theorem legacy_key_direct_lookup_mismatch :
    StyleRegistry.get "creative" = METRO_STYLE ∧
    StyleRegistry.get "modern_cafe" = MODERN_CAFE_STYLE ∧
    StyleRegistry.get "creative" ≠ StyleRegistry.get "modern_cafe" := by
  refine ⟨rfl, rfl, ?_⟩
  intro h
  have := congrArg StyleProfile.name h
  simp [StyleRegistry.get, StyleRegistry.styles, dictGet, StyleType.val,
    METRO_STYLE, MODERN_CAFE_STYLE] at this

/-- **C4, amended**: the legacy remap lives in the orchestrator
(`app_normalize_style`), not inside `StyleRegistry.get`; for every pair of
the remap table, the catalog lookup applied to the *remapped* key returns
the same profile as the lookup applied to the current equivalent, while the
raw legacy key put straight into `StyleRegistry.get` resolves to the Metro
fallback. -/
theorem legacy_key_remap_before_lookup (legacy current : String)
    (h : (legacy, current) ∈ old_style_map) :
    app_normalize_style legacy = current ∧
    StyleRegistry.get (app_normalize_style legacy) = StyleRegistry.get current ∧
    StyleRegistry.get legacy = METRO_STYLE := by
  fin_cases h <;> exact ⟨rfl, rfl, rfl⟩

/-- **C4, witness**: the legacy key `"professional"` remaps to
`"taipei_metro"` and resolves to the Taipei Metro profile. -/
theorem legacy_key_remap_before_lookup_witness :
    ("professional", "taipei_metro") ∈ old_style_map ∧
    (app_normalize_style "professional" = "taipei_metro" ∧
      StyleRegistry.get (app_normalize_style "professional")
        = StyleRegistry.get "taipei_metro" ∧
      StyleRegistry.get "professional" = METRO_STYLE) :=
  ⟨by decide, legacy_key_remap_before_lookup "professional" "taipei_metro" (by decide)⟩

/-! ## Claim C5 -/

/-- **C5**: `StyleRegistry.get` is a total function (it returns a
`StyleProfile` on every string key and cannot raise); on a key bound in the
catalog it returns that key's profile, and on any key the catalog does not
mention it returns `METRO_STYLE`, the Taipei Metro profile. -/
theorem style_registry_get_total (key : String) :
    ((∀ p ∈ StyleRegistry.styles, p.1 ≠ key) → StyleRegistry.get key = METRO_STYLE) ∧
    (StyleRegistry.get key = METRO_STYLE ∨
      (key, StyleRegistry.get key) ∈ StyleRegistry.styles) :=
  ⟨fun h => dictGet_eq_default METRO_STYLE h,
   dictGet_default_or_mem StyleRegistry.styles key METRO_STYLE⟩

/-- **C5, witness**: the unregistered key `"no_such_style"` resolves to the
Taipei Metro profile. -/
theorem style_registry_get_total_witness :
    (∀ p ∈ StyleRegistry.styles, p.1 ≠ "no_such_style") ∧
    StyleRegistry.get "no_such_style" = METRO_STYLE :=
  ⟨by decide, (style_registry_get_total "no_such_style").1 (by decide)⟩

/-! ## Claim C10 -/

/-- **C10**: `StyleType.DEFAULT` is a member of the closed enumeration with
value `"default"`, yet the registry carries no entry for it, so
`StyleRegistry.get` on it falls through to the Taipei Metro profile exactly
as on an arbitrary unrecognized key. -/
theorem style_type_default_unregistered :
    StyleType.DEFAULT.val = "default" ∧
    ((StyleRegistry.styles.map Prod.fst).contains StyleType.DEFAULT.val) = false ∧
    StyleRegistry.get StyleType.DEFAULT.val = METRO_STYLE ∧
    StyleRegistry.get "some_unrecognized_key" = METRO_STYLE ∧
    METRO_STYLE.name = "Taipei Metro" := by
  refine ⟨rfl, by decide, rfl, rfl, rfl⟩

/-! ## Claim C3 -/

/-- **C3, counterexample**: under the Modern Cafe profile, a slide with the
unmapped section tag `"mystery_section"` gets the hardcoded gray — exporter
RGB (51, 51, 51) and renderer string `"#333"` — while a slide with the
explicit `"default"` tag gets the profile's `"default"` entry `#5D4E37`,
i.e. RGB (93, 78, 55): the two colors differ, refuting the claim. -/
theorem unknown_tag_not_default_entry :
    ((pptx_export (fun _ => (none : Option Unit)) [mysterySlide] MODERN_CAFE_STYLE).getD
        []).map (fun p => p.line_fill) = [⟨51, 51, 51⟩] ∧
    ((pptx_export (fun _ => (none : Option Unit)) [defaultTagSlide] MODERN_CAFE_STYLE).getD
        []).map (fun p => p.line_fill) = [⟨93, 78, 55⟩] ∧
    (render_slides [mysterySlide] MODERN_CAFE_STYLE).map (fun s => s.line_color)
      = ["#333"] ∧
    (render_slides [defaultTagSlide] MODERN_CAFE_STYLE).map (fun s => s.line_color)
      = ["#5D4E37"] ∧
    (⟨51, 51, 51⟩ : RGBColor) ≠ ⟨93, 78, 55⟩ ∧ "#333" ≠ "#5D4E37" := by
  refine ⟨rfl, rfl, rfl, rfl, by decide, by decide⟩

/-- **C3, amended**: a slide whose section tag is not a key of the profile's
color map resolves to the *hardcoded* neutral gray — `"#333333"` (RGB
(51, 51, 51)) in the exporter and the literal `"#333"` in the renderer —
irrespective of the profile's `"default"` entry; it coincides with an
explicit `"default"` tag only for profiles whose `"default"` entry denotes
that same gray (as the Taipei Metro profile's does). -/
theorem unknown_tag_hardcoded_gray {Img : Type} (decode : String → Option Img)
    (style : StyleProfile) (content : SlideContent) (total idx n : Nat)
    (h : ∀ p ∈ style.logic_color_map, p.1 ≠ content.framework_section) :
    (∃ page : ExportPage Img,
      mkPage decode style total idx content = some page ∧
      page.line_fill = ⟨51, 51, 51⟩ ∧ page.accent_bar_fill = ⟨51, 51, 51⟩ ∧
      page.badge_line_color = ⟨51, 51, 51⟩) ∧
    (mkRenderSlide style n idx content).line_color = "#333" := by
  have hhex : dictGet style.logic_color_map content.framework_section "#333333"
      = "#333333" := dictGet_eq_default _ h
  have hhex' : dictGet style.logic_color_map content.framework_section "#333"
      = "#333" := dictGet_eq_default _ h
  constructor
  · have hpage : mkPage decode style total idx content
        = some { background := pageBackground decode content
               , line_fill := ⟨51, 51, 51⟩
               , badge_text := zfill2 idx
               , badge_fill := ⟨255, 255, 255⟩
               , badge_line_color := ⟨51, 51, 51⟩
               , badge_line_width := 6
               , badge_font_color := ⟨51, 51, 51⟩
               , dots := draw_progress_dots idx ⟨51, 51, 51⟩ total
               , accent_bar_fill := ⟨51, 51, 51⟩
               , title_text := content.title
               , body_text := content.body_text } := by
      unfold mkPage
      rw [hhex]
      rfl
    exact ⟨_, hpage, rfl, rfl, rfl⟩
  · unfold mkRenderSlide
    rw [hhex']

/-- **C3, witness**: the amended statement evaluated for `mysterySlide`
under the Modern Cafe profile. -/
theorem unknown_tag_hardcoded_gray_witness :
    (∀ p ∈ MODERN_CAFE_STYLE.logic_color_map, p.1 ≠ mysterySlide.framework_section) ∧
    ((∃ page : ExportPage Unit,
      mkPage (fun _ => none) MODERN_CAFE_STYLE 1 1 mysterySlide = some page ∧
      page.line_fill = ⟨51, 51, 51⟩ ∧ page.accent_bar_fill = ⟨51, 51, 51⟩ ∧
      page.badge_line_color = ⟨51, 51, 51⟩) ∧
    (mkRenderSlide MODERN_CAFE_STYLE 1 1 mysterySlide).line_color = "#333") :=
  ⟨by decide, unknown_tag_hardcoded_gray (fun _ => none) MODERN_CAFE_STYLE
    mysterySlide 1 1 1 (by decide)⟩

/-! ## Claim C8 -/

/-- **C8**: on every 6-hex-digit color string, with or without a leading
`'#'`, the exporter's conversion returns exactly the three channel values
`int(h[0:2], 16)`, `int(h[2:4], 16)`, `int(h[4:6], 16)` in R, G, B order,
each of them in 0–255. -/
theorem hex_to_rgb_exact (c0 c1 c2 c3 c4 c5 : Char)
    (h0 : (hexDigitVal c0).isSome = true) (h1 : (hexDigitVal c1).isSome = true)
    (h2 : (hexDigitVal c2).isSome = true) (h3 : (hexDigitVal c3).isSome = true)
    (h4 : (hexDigitVal c4).isSome = true) (h5 : (hexDigitVal c5).isSome = true) :
    ∃ r g b : Nat,
      hex_to_rgb (String.mk [c0, c1, c2, c3, c4, c5]) = some ⟨r, g, b⟩ ∧
      hex_to_rgb (String.mk ('#' :: [c0, c1, c2, c3, c4, c5])) = some ⟨r, g, b⟩ ∧
      some r = pyIntHex [c0, c1] ∧ some g = pyIntHex [c2, c3] ∧
      some b = pyIntHex [c4, c5] ∧ r ≤ 255 ∧ g ≤ 255 ∧ b ≤ 255 := by
  obtain ⟨d0, hd0⟩ := Option.isSome_iff_exists.mp h0
  obtain ⟨d1, hd1⟩ := Option.isSome_iff_exists.mp h1
  obtain ⟨d2, hd2⟩ := Option.isSome_iff_exists.mp h2
  obtain ⟨d3, hd3⟩ := Option.isSome_iff_exists.mp h3
  obtain ⟨d4, hd4⟩ := Option.isSome_iff_exists.mp h4
  obtain ⟨d5, hd5⟩ := Option.isSome_iff_exists.mp h5
  have e1 : pyIntHex [c0, c1] = some (16 * d0 + d1) := pyIntHex_pair hd0 hd1
  have e2 : pyIntHex [c2, c3] = some (16 * d2 + d3) := pyIntHex_pair hd2 hd3
  have e3 : pyIntHex [c4, c5] = some (16 * d4 + d5) := pyIntHex_pair hd4 hd5
  have hdrop : ((String.mk [c0, c1, c2, c3, c4, c5]).data.dropWhile fun c => c = '#')
      = [c0, c1, c2, c3, c4, c5] := by
    show ([c0, c1, c2, c3, c4, c5].dropWhile fun c => c = '#') = _
    simp [List.dropWhile_cons, ne_hash_of_hexDigit h0]
  have hdrop' : ((String.mk ('#' :: [c0, c1, c2, c3, c4, c5])).data.dropWhile
        fun c => c = '#')
      = [c0, c1, c2, c3, c4, c5] := by
    show (('#' :: [c0, c1, c2, c3, c4, c5]).dropWhile fun c => c = '#') = _
    simp [List.dropWhile_cons, ne_hash_of_hexDigit h0]
  have hs1 : pySlice [c0, c1, c2, c3, c4, c5] 0 2 = [c0, c1] := rfl
  have hs2 : pySlice [c0, c1, c2, c3, c4, c5] 2 4 = [c2, c3] := rfl
  have hs3 : pySlice [c0, c1, c2, c3, c4, c5] 4 6 = [c4, c5] := rfl
  refine ⟨16 * d0 + d1, 16 * d2 + d3, 16 * d4 + d5, ?_, ?_, e1.symm, e2.symm, e3.symm,
    ?_, ?_, ?_⟩
  · simp only [hex_to_rgb]
    rw [hdrop, hs1, hs2, hs3, e1, e2, e3]
    rfl
  · simp only [hex_to_rgb]
    rw [hdrop', hs1, hs2, hs3, e1, e2, e3]
    rfl
  · have := hexDigitVal_lt_16 hd0
    have := hexDigitVal_lt_16 hd1
    omega
  · have := hexDigitVal_lt_16 hd2
    have := hexDigitVal_lt_16 hd3
    omega
  · have := hexDigitVal_lt_16 hd4
    have := hexDigitVal_lt_16 hd5
    omega

/-- **C8, witness**: `"#E3002C"` maps to (227, 0, 44). -/
theorem hex_to_rgb_exact_witness :
    (hexDigitVal 'E').isSome = true ∧
    hex_to_rgb "#E3002C" = some ⟨227, 0, 44⟩ ∧
    (∃ r g b : Nat,
      hex_to_rgb (String.mk ['E', '3', '0', '0', '2', 'C']) = some ⟨r, g, b⟩ ∧
      hex_to_rgb (String.mk ('#' :: ['E', '3', '0', '0', '2', 'C'])) = some ⟨r, g, b⟩ ∧
      some r = pyIntHex ['E', '3'] ∧ some g = pyIntHex ['0', '0'] ∧
      some b = pyIntHex ['2', 'C'] ∧ r ≤ 255 ∧ g ≤ 255 ∧ b ≤ 255) :=
  ⟨by decide, by decide, hex_to_rgb_exact 'E' '3' '0' '0' '2' 'C'
    (by decide) (by decide) (by decide) (by decide) (by decide) (by decide)⟩

/-! ## Claim C9 -/

/-- **C9, counterexample**: the exporter does *not* strip "the part up to
and including the first comma". On the payload `"a,b,c"` it passes only
`"b"` — the segment between the first and the second comma — to the decoder
(made visible here by the decoder `some`), not the full remainder
`"b,c"`. -/
theorem exporter_keeps_second_segment_only :
    set_background (fun s => (some s : Option String)) "a,b,c" = some "b" ∧
    set_background_payload "a,b,c" = "b" ∧
    ("b" : String) ≠ "b,c" := by
  refine ⟨rfl, rfl, by decide⟩

/-- **C9, amended**: on a payload with a comma, the exporter base64-decodes
`payload.split(",")[1]`, the segment between the first and the second comma;
when nothing follows the first comma but a comma-free body — the shape of
every genuine data URI, since base64 text contains no comma — this is
exactly the remainder after the first comma. The renderer, by contrast,
emits `"data:image/png;base64,"` concatenated with the stored payload
verbatim, so a payload already carrying that marker yields a doubled one. -/
theorem data_uri_asymmetry (pre rest : List Char) (body : String)
    (style : StyleProfile) (n idx : Nat) (slide : SlideContent)
    (hpre : ',' ∉ pre) (hrest : ',' ∉ rest)
    (hbg : slide.background_image_base64 = some ("data:image/png;base64," ++ body)) :
    set_background_payload (String.mk (pre ++ ',' :: rest)) = String.mk rest ∧
    (∀ (Img : Type) (decode : String → Option Img),
      set_background decode (String.mk (pre ++ ',' :: rest)) = decode (String.mk rest)) ∧
    (mkRenderSlide style n idx slide).background_style =
      "data:image/png;base64," ++ ("data:image/png;base64," ++ body) := by
  have hsplit : pySplitComma (String.mk (pre ++ ',' :: rest))
      = [String.mk pre, String.mk rest] := by
    unfold pySplitComma
    show ((splitCommaList (pre ++ ',' :: rest)).map fun cs => String.mk cs) = _
    rw [splitCommaList_append pre rest hpre, splitCommaList_no_comma rest hrest]
    rfl
  have hcomma : pyContainsComma (String.mk (pre ++ ',' :: rest)) = true := by
    unfold pyContainsComma
    exact List.elem_eq_true_of_mem (by simp)
  have hpayload : set_background_payload (String.mk (pre ++ ',' :: rest))
      = String.mk rest := by
    unfold set_background_payload
    rw [hcomma, hsplit]
    rfl
  refine ⟨hpayload, fun Img decode => ?_, ?_⟩
  · unfold set_background
    rw [hpayload]
  · have hne : ¬ ("data:image/png;base64," ++ body) = "" := by
      intro h
      have := congrArg String.data h
      rw [String.data_append] at this
      simp at this
    have htruthy : truthy slide.background_image_base64 = true := by
      rw [hbg]
      unfold truthy
      simp [hne]
    unfold mkRenderSlide
    rw [htruthy, hbg]
    rfl

/-- **C9, witness**: the amended statement evaluated on the data-URI-shaped
payload `"data:image/png;base64,QUJD"` and on `sampleUriSlide`, whose stored
payload already carries the marker. -/
theorem data_uri_asymmetry_witness :
    (',' ∉ "data:image/png;base64".data) ∧
    (set_background_payload
        (String.mk ("data:image/png;base64".data ++ ',' :: "QUJD".data))
        = String.mk "QUJD".data ∧
      (∀ (Img : Type) (decode : String → Option Img),
        set_background decode
            (String.mk ("data:image/png;base64".data ++ ',' :: "QUJD".data))
          = decode (String.mk "QUJD".data)) ∧
      (mkRenderSlide METRO_STYLE 1 1 sampleUriSlide).background_style =
        "data:image/png;base64," ++ ("data:image/png;base64," ++ "QUJD")) :=
  ⟨by decide, data_uri_asymmetry "data:image/png;base64".data "QUJD".data "QUJD"
    METRO_STYLE 1 1 sampleUriSlide (by decide) (by decide) rfl⟩

/-! ## Claim C6 -/

/-- **C6**: a successful export has exactly one page per slide, in input
order (page `k` carries slide `k`'s title and body), and the badge on the
page at 1-based position `k` reads `str(k).zfill(2)`. -/
theorem export_page_count_and_badges {Img : Type} (decode : String → Option Img)
    (slides : List SlideContent) (style : StyleProfile) (pages : List (ExportPage Img))
    (h : pptx_export decode slides style = some pages) :
    pages.length = slides.length ∧
    ∀ k, k < slides.length →
      (pages.getD k (defaultPage Img)).badge_text = zfill2 (k + 1) ∧
      (pages.getD k (defaultPage Img)).title_text = (slides.getD k defaultSlide).title ∧
      (pages.getD k (defaultPage Img)).body_text = (slides.getD k defaultSlide).body_text := by
  obtain ⟨hlen, hget⟩ := exportPages_spec decode style slides.length slides 1 pages h
  refine ⟨hlen, fun k hk => ?_⟩
  obtain ⟨hb, ht, hbody, _⟩ := mkPage_fields (hget k hk)
  have harith : (1 : Nat) + k = k + 1 := by omega
  rw [harith] at hb
  exact ⟨hb, ht, hbody⟩

/-- **C6, witness**: the statement evaluated on the concrete two-slide
deck. -/
theorem export_page_count_and_badges_witness :
    pptx_export (fun _ => (none : Option Unit)) sampleDeck2 METRO_STYLE = some samplePages ∧
    (samplePages.length = sampleDeck2.length ∧
      ∀ k, k < sampleDeck2.length →
        (samplePages.getD k (defaultPage Unit)).badge_text = zfill2 (k + 1) ∧
        (samplePages.getD k (defaultPage Unit)).title_text
          = (sampleDeck2.getD k defaultSlide).title ∧
        (samplePages.getD k (defaultPage Unit)).body_text
          = (sampleDeck2.getD k defaultSlide).body_text) :=
  ⟨rfl, export_page_count_and_badges (fun _ => none) sampleDeck2 METRO_STYLE samplePages rfl⟩

/-! ## Claim C7 -/

/-- **C7**: in a successful export, a slide whose background payload is
absent or fails to decode yields its page with no background layer, and the
failure is contained to that slide: replacing that slide's payload by
anything whatsoever still exports successfully and leaves every other page
bit-for-bit unchanged. -/
theorem export_background_failsoft {Img : Type} (decode : String → Option Img)
    (slides : List SlideContent) (style : StyleProfile) (pages : List (ExportPage Img))
    (j : Nat) (hexp : pptx_export decode slides style = some pages)
    (hj : j < slides.length)
    (hfail : pageBackground decode (slides.getD j defaultSlide) = none) :
    (pages.getD j (defaultPage Img)).background = none ∧
    ∀ b' : Option String, ∃ pages' : List (ExportPage Img),
      pptx_export decode (slides.set j ((slides.getD j defaultSlide).withBg b')) style
        = some pages' ∧
      pages'.length = pages.length ∧
      ∀ i, i ≠ j → pages'.getD i (defaultPage Img) = pages.getD i (defaultPage Img) := by
  obtain ⟨hlen, hget⟩ := exportPages_spec decode style slides.length slides 1 pages hexp
  have hj' := hget j hj
  constructor
  · exact (mkPage_background hj').trans hfail
  · intro b'
    have hp' : mkPage decode style slides.length (1 + j)
        ((slides.getD j defaultSlide).withBg b')
        = some { pages.getD j (defaultPage Img) with
                 background := pageBackground decode ((slides.getD j defaultSlide).withBg b') } := by
      rw [mkPage_withBg, hj']
      rfl
    refine ⟨pages.set j
      { pages.getD j (defaultPage Img) with
        background := pageBackground decode ((slides.getD j defaultSlide).withBg b') },
      ?_, ?_, ?_⟩
    · unfold pptx_export
      rw [List.length_set]
      exact exportPages_set decode style slides.length slides 1 j pages _ _ hexp hp'
    · rw [List.length_set]
    · intro i hij
      exact getD_set_ne _ pages j _ i (fun hji => hij hji.symm)

/-- **C7, witness**: the statement evaluated on a one-slide deck whose only
slide carries an undecodable payload, with a decoder that always fails. -/
theorem export_background_failsoft_witness :
    pptx_export (fun _ => (none : Option Unit)) [badBgSlide] METRO_STYLE
      = some ((pptx_export (fun _ => (none : Option Unit)) [badBgSlide] METRO_STYLE).getD []) ∧
    0 < [badBgSlide].length ∧
    pageBackground (fun _ => (none : Option Unit)) ([badBgSlide].getD 0 defaultSlide) = none ∧
    (((((pptx_export (fun _ => (none : Option Unit)) [badBgSlide] METRO_STYLE).getD []).getD 0
        (defaultPage Unit)).background = none) ∧
      ∀ b' : Option String, ∃ pages' : List (ExportPage Unit),
        pptx_export (fun _ => (none : Option Unit))
            ([badBgSlide].set 0 (([badBgSlide].getD 0 defaultSlide).withBg b')) METRO_STYLE
          = some pages' ∧
        pages'.length
          = ((pptx_export (fun _ => (none : Option Unit)) [badBgSlide] METRO_STYLE).getD []).length ∧
        ∀ i, i ≠ 0 →
          pages'.getD i (defaultPage Unit)
            = ((pptx_export (fun _ => (none : Option Unit)) [badBgSlide] METRO_STYLE).getD []).getD i
                (defaultPage Unit)) :=
  ⟨rfl, by decide, rfl,
    export_background_failsoft (fun _ => none) [badBgSlide] METRO_STYLE _ 0 rfl (by decide) rfl⟩

/-! ## Claim C2 -/

/-- **C2, code evaluated at the failing input**: on the two-slide deck
`sampleDeck2`, the exporter activates exactly the dot at the page's own
position on every page (`[[true, false], [false, true]]`), but the renderer
marks *every* dot of every slide's row active — the template's inner
`{% for i in range(1, n+1) %}` loop compares `i` with the inner loop's own
`loop.index`, which are always equal — so the renderer's rows read
`[[true, true], [true, true]]`, not one active dot per page. Both rows do
have exactly `N = 2` dots. -/
theorem progress_dot_active_divergence :
    (samplePages.map fun p => p.dots.length) = [2, 2] ∧
    (sampleRender.map fun s => s.dots.length) = [2, 2] ∧
    (samplePages.map fun p => p.dots.map ProgressDot.isActive)
      = [[true, false], [false, true]] ∧
    (sampleRender.map fun s => s.dots.map RenderDot.isActive)
      = [[true, true], [true, true]] ∧
    ((sampleRender.getD 0 defaultRenderSlide).dots.map RenderDot.isActive
      ≠ [true, false]) := by
  refine ⟨rfl, rfl, rfl, rfl, by decide⟩

/-! ## Claim C1 -/

/-- **C1, code evaluated at the failing input**: on `sampleDeck2` under the
Taipei Metro profile the two components agree on the badge numbers
(`"01"`, `"02"`) and on the accent colors (the renderer's hex strings
denote exactly the exporter's RGB triples), but they do *not* agree on
which progress dot is active: on the first page the exporter activates only
dot 1 while the renderer activates both dots. -/
theorem theme_decision_divergence :
    (samplePages.map fun p => p.badge_text) = ["01", "02"] ∧
    (sampleRender.map fun s => s.badge_text) = ["01", "02"] ∧
    (samplePages.map fun p => p.line_fill) = [⟨227, 0, 44⟩, ⟨0, 112, 189⟩] ∧
    (sampleRender.map fun s => s.line_color) = ["#E3002C", "#0070BD"] ∧
    (sampleRender.map fun s => hex_to_rgb s.line_color)
      = (samplePages.map fun p => some p.line_fill) ∧
    (samplePages.getD 0 (defaultPage Unit)).dots.map ProgressDot.isActive
      = [true, false] ∧
    (sampleRender.getD 0 defaultRenderSlide).dots.map RenderDot.isActive
      = [true, true] ∧
    ([true, false] : List Bool) ≠ [true, true] := by
  refine ⟨rfl, rfl, rfl, rfl, rfl, rfl, rfl, by decide⟩
